import Mathlib

/-!
Verification of the socks5-server connection state machine.

The Rust source (src/lib.rs) drives one client connection through
method negotiation, optional username/password authentication, command
decoding and the connect/relay handoff.  Here the client TCP stream is
embedded as a pair of byte lists (bytes still to be read, bytes written
so far) and every `Connection` method of the source is translated into
a function in a state-and-error monad over that stream.  Bytes are
natural numbers; wire values are below 256.
-/

namespace Socks5

instance {ε α : Type} [DecidableEq ε] [DecidableEq α] : DecidableEq (Except ε α) := fun x y =>
  match x, y with
  | Except.ok a, Except.ok b =>
    if h : a = b then isTrue (by rw [h]) else isFalse (fun hc => h (Except.ok.inj hc))
  | Except.error a, Except.error b =>
    if h : a = b then isTrue (by rw [h]) else isFalse (fun hc => h (Except.error.inj hc))
  | Except.ok _, Except.error _ => isFalse (fun hc => Except.noConfusion hc)
  | Except.error _, Except.ok _ => isFalse (fun hc => Except.noConfusion hc)

/-- The client stream: `input` is what remains to be read from the client,
`output` is everything the server has written so far. -/
structure ByteStream where
  input : List Nat
  output : List Nat
deriving DecidableEq

/-- The distinct failure exits of a session.  The Rust code signals all of
them through one generic error type; each constructor here corresponds to
one concrete failure site: `ioError` to a failed read or write on the
transport, `errorMethod` to the bail in `reply_method`, `errorLens` to the
bail in `read_variable`, `authFailed` to the bail in `auth_passwd`,
`unsupportedAddrType` to the bail in `read_addr`, `addrParse` to the
propagated address-parse failure in the Domain arm of `read_addr`, and
`panicUnreachable` to the unreachable arm of `auth`. -/
inductive SessionError where
  | ioError
  | errorMethod
  | errorLens
  | authFailed
  | unsupportedAddrType
  | addrParse
  | panicUnreachable
deriving DecidableEq

/-- The session monad: a computation reads and writes the client stream and
may fail; on failure the stream is kept, so bytes already written to the
client remain observable. -/
def M (α : Type) : Type := ByteStream → Except SessionError α × ByteStream

instance : Monad M where
  pure := fun a s => (Except.ok a, s)
  bind := fun x f s =>
    match x s with
    | (Except.ok a, s2) => f a s2
    | (Except.error e, s2) => (Except.error e, s2)

/-- Fail with error `e` (the `anyhow::bail!` / error-propagation of the source). -/
def throwE {α : Type} (e : SessionError) : M α := fun s => (Except.error e, s)

/-- `stream.read_u8()`: one byte from the client, I/O error at end of stream. -/
def read_u8 : M Nat := fun s =>
  match s.input with
  | [] => (Except.error SessionError.ioError, s)
  | b :: rest => (Except.ok b, { s with input := rest })

/-- `stream.read_exact(buf)` for a buffer of size `n`: exactly `n` bytes. -/
def read_exact (n : Nat) : M (List Nat) := fun s =>
  if n ≤ s.input.length then
    (Except.ok (s.input.take n), { s with input := s.input.drop n })
  else
    (Except.error SessionError.ioError, s)

/-- `stream.read_u16()`: two bytes, big-endian. -/
def read_u16 : M Nat := fun s =>
  match s.input with
  | a :: b :: rest => (Except.ok (a * 256 + b), { s with input := rest })
  | _ => (Except.error SessionError.ioError, s)

/-- `stream.write_all(buf)` (the following `flush` is a no-op here). -/
def write_all (bs : List Nat) : M Unit := fun s =>
  (Except.ok (), { s with output := s.output ++ bs })

/-- `stream.write_u16(v)`: two bytes, big-endian. -/
def write_u16 (v : Nat) : M Unit :=
  write_all [v / 256 % 256, v % 256]

/-- `fn to_u16(a: u8, b: u8) -> u16 { ((a as u16) << 8) + b as u16 }`;
for bytes below 256 the shift-add never overflows `u16`. -/
def to_u16 (a b : Nat) : Nat := a * 256 + b

/-- `enum Method { Noauth = 0x00, Passwd = 0x02, Error = 0xff }`. -/
inductive Method where
  | Noauth
  | Passwd
  | Error
deriving DecidableEq

/-- The discriminant of `Method` (`method as u8`). -/
def Method.toByte : Method → Nat
  | Method.Noauth => 0x00
  | Method.Passwd => 0x02
  | Method.Error => 0xff

/-- `enum AuthMethod { Passwd = 0x01 }`. -/
inductive AuthMethod where
  | Passwd
deriving DecidableEq

/-- The discriminant of `AuthMethod` (`method as u8`). -/
def AuthMethod.toByte : AuthMethod → Nat
  | AuthMethod.Passwd => 0x01

/-- `enum Command { Connect = 0x01, Unsupported = 0x04 }`. -/
inductive Command where
  | Connect
  | Unsupported
deriving DecidableEq

/-- `impl From<u8> for Command`. -/
def Command.fromByte (c : Nat) : Command :=
  if c = 1 then Command.Connect else Command.Unsupported

/-- `enum CommandRep` with the discriminants used by the source. -/
inductive CommandRep where
  | Succeeded
  | RuleSetNotAllowed
  | ConnectionRefused
  | CommandUnsupported
  | AddrTypeUnsupported
deriving DecidableEq

/-- The discriminant of `CommandRep` (`rep as u8`). -/
def CommandRep.toByte : CommandRep → Nat
  | CommandRep.Succeeded => 0x00
  | CommandRep.RuleSetNotAllowed => 0x02
  | CommandRep.ConnectionRefused => 0x05
  | CommandRep.CommandUnsupported => 0x07
  | CommandRep.AddrTypeUnsupported => 0x08

/-- `enum AddrType { V4 = 0x01, Domain = 0x03, V6 = 0x04, Unsupported = 0x05 }`. -/
inductive AddrType where
  | V4
  | Domain
  | V6
  | Unsupported
deriving DecidableEq

/-- The discriminant of `AddrType` (`t as u8`). -/
def AddrType.toByte : AddrType → Nat
  | AddrType.V4 => 0x01
  | AddrType.Domain => 0x03
  | AddrType.V6 => 0x04
  | AddrType.Unsupported => 0x05

/-- `impl From<u8> for AddrType`. -/
def AddrType.fromByte (t : Nat) : AddrType :=
  if t = 1 then AddrType.V4
  else if t = 3 then AddrType.Domain
  else if t = 4 then AddrType.V6
  else AddrType.Unsupported

/-- `enum Stage { Method, Auth, Command }`. -/
inductive Stage where
  | Method
  | Auth
  | Command
deriving DecidableEq

/-- `std::net::SocketAddr`: a concrete IPv4 or IPv6 endpoint.  `v4` keeps
the four address bytes, `v6` keeps the raw address bytes. -/
inductive SocketAddr where
  | v4 (addr : List Nat) (port : Nat)
  | v6 (addr : List Nat) (port : Nat)
deriving DecidableEq

/-- The ASCII decimal digits of `n`, as Rust `Display` for integers
renders them.  `fuel` bounds the recursion and `n + 1` is always enough
(a number has at most `n + 1` digits). -/
def natDecimalAux : Nat → Nat → List Nat
  | 0, _ => []
  | fuel + 1, n => if n < 10 then [48 + n] else natDecimalAux fuel (n / 10) ++ [48 + n % 10]

/-- The ASCII decimal rendering of `n`. -/
def natDecimal (n : Nat) : List Nat := natDecimalAux (n + 1) n

/-- The interior of the Rust `Debug` rendering of a byte slice: decimal
numbers separated by a comma and a space. -/
def sepMap : List Nat → List Nat
  | [] => []
  | [b] => natDecimal b
  | b :: c :: rest => natDecimal b ++ 44 :: 32 :: sepMap (c :: rest)

/-- The full Rust `Debug` rendering of a byte slice, as ASCII bytes:
an opening bracket (91), the comma-separated decimal entries and a
closing bracket (93). -/
def debugFmtBytes (bs : List Nat) : List Nat :=
  91 :: sepMap bs ++ [93]

/-- Is `b` the ASCII code of a decimal digit? -/
def isDigitByte (b : Nat) : Bool := decide (48 ≤ b ∧ b ≤ 57)

/-- Is `b` the ASCII code of a hexadecimal digit? -/
def isHexDigitByte (b : Nat) : Bool :=
  decide ((48 ≤ b ∧ b ≤ 57) ∨ (97 ≤ b ∧ b ≤ 102) ∨ (65 ≤ b ∧ b ≤ 70))

/-- Numeric value of an ASCII decimal digit string. -/
def decimalValue (l : List Nat) : Nat :=
  l.foldl (fun acc b => acc * 10 + (b - 48)) 0

/-- Modelled from the spec: port parsing inside `std::net::SocketAddr`
parsing (external standard-library code, not part of src/): a nonempty
run of decimal digits whose value fits in 16 bits. -/
def parsePort (l : List Nat) : Option Nat :=
  if l ≠ [] ∧ isDigitByte 1 = isDigitByte 1 ∧ l.all isDigitByte then
    if decimalValue l ≤ 65535 then some (decimalValue l) else none
  else none

/-- Modelled from the spec: a character-level necessary condition for a
textual IPv6 address as accepted by `std::net::Ipv6Addr` parsing
(external standard-library code, not part of src/): every byte is a hex
digit, a colon (58) or a dot (46), and at least one colon occurs.  The
model is deliberately permissive: it accepts a superset of the strings
the real parser accepts, so a rejection here implies a real rejection. -/
def isIpv6Interior (l : List Nat) : Bool :=
  l.all (fun b => isHexDigitByte b || b == 58 || b == 46) && l.any (fun b => b == 58)

/-- Modelled from the spec: the dotted-quad host of a textual IPv4 socket
address: four nonempty decimal groups separated by dots, each below 256. -/
def parseIpv4Host (l : List Nat) : Option (List Nat) :=
  let parts := l.splitOn 46
  if parts.length = 4 ∧ parts.all (fun p => !p.isEmpty && p.all isDigitByte && decide (decimalValue p ≤ 255)) then
    some (parts.map decimalValue)
  else none

/-- Modelled from the spec: the bracketed form of a textual socket
address, `interior` up to the closing bracket (93) followed by a colon
(58) and the port. -/
def parseBracketed (rest : List Nat) : Option SocketAddr :=
  let interior := rest.takeWhile (fun b => decide (b ≠ 93))
  match rest.dropWhile (fun b => decide (b ≠ 93)) with
  | r1 :: r2 :: portNats =>
    if r1 = 93 ∧ r2 = 58 then
      if isIpv6Interior interior then
        match parsePort portNats with
        | some p => some (SocketAddr.v6 interior p)
        | none => none
      else none
    else none
  | _ => none

/-- Modelled from the spec: the unbracketed form of a textual socket
address, a dotted-quad host up to the first colon (58) and the port. -/
def parseV4Full (s : List Nat) : Option SocketAddr :=
  let host := s.takeWhile (fun b => decide (b ≠ 58))
  match s.dropWhile (fun b => decide (b ≠ 58)) with
  | _ :: portNats =>
    match parseIpv4Host host, parsePort portNats with
    | some quad, some p => some (SocketAddr.v4 quad p)
    | _, _ => none
  | [] => none

/-- Modelled from the spec: `std::net::SocketAddr::from_str` (external
standard-library code, not part of src/), over the ASCII bytes of the
string.  It accepts only literal socket addresses: either a dotted-quad
IPv4 host followed by a colon and a port, or a bracketed IPv6 literal
followed by a colon and a port.  The IPv6 interior check is a permissive
necessary condition (see `isIpv6Interior`), so this model accepts a
superset of what the real parser accepts. -/
def socketAddrFromStr (s : List Nat) : Option SocketAddr :=
  match s with
  | [] => none
  | c :: rest => if c = 91 then parseBracketed rest else parseV4Full s

/-- The external world of one session: whether an outbound TCP connection
to a given address succeeds (`TcpStream::connect`), and the effect of
`copy_bidirectional` on the client stream once connected (`none` models a
relay-phase I/O error). -/
structure World where
  connectOk : SocketAddr → Bool
  relay : ByteStream → Option ByteStream

/-- A world in which every outbound connection attempt fails and relaying
changes nothing. -/
def worldRefuseAll : World :=
  { connectOk := fun _ => false, relay := fun s => some s }

/-- `copy_bidirectional(&mut self.stream, &mut connection).await?`. -/
def relayM (w : World) : M Unit := fun s =>
  match w.relay s with
  | some s2 => (Except.ok (), s2)
  | none => (Except.error SessionError.ioError, s)

/-- `struct Connection`: the stream lives in the monad state; `version`
is the protocol version, set to 5 at construction and never changed. -/
structure Connection where
  version : Nat
deriving DecidableEq

/-- `Connection::new`: version is fixed at 5. -/
def Connection.new : Connection := { version := 5 }

/-- `Connection::reply_command`: the fixed 10-byte command reply frame. -/
def Connection.reply_command (c : Connection) (rep : CommandRep) : M Unit :=
  write_all [c.version, rep.toByte, 0, AddrType.V4.toByte, 0, 0, 0, 0, 0, 0]

/-- `Connection::reply_method`: write the 2-byte negotiation reply, then
bail when the selected method is `Error`. -/
def Connection.reply_method (c : Connection) (method : Method) : M Unit := do
  write_u16 (to_u16 c.version method.toByte)
  match method with
  | Method.Error => throwE SessionError.errorMethod
  | _ => pure ()

/-- `Connection::reply_auth`: write the 2-byte auth reply
`to_u16(method as u8, !rep as u8)`; the first byte is the `AuthMethod`
discriminant and the second is 1 on failure, 0 on success. -/
def Connection.reply_auth (_c : Connection) (method : AuthMethod) (rep : Bool) : M Unit := do
  write_u16 (to_u16 method.toByte (if rep then 0 else 1))
  pure ()

/-- `Connection::read_variable`: one length byte, then that many bytes;
a zero length sends the stage-dependent negative reply and bails. -/
def Connection.read_variable (c : Connection) (stage : Stage) : M (List Nat) := do
  let n ← read_u8
  if n = 0 then do
    (match stage with
     | Stage.Command => c.reply_command CommandRep.RuleSetNotAllowed
     | Stage.Method => c.reply_method Method.Error
     | Stage.Auth => c.reply_auth AuthMethod.Passwd false)
    throwE SessionError.errorLens
  else
    read_exact n

/-- `Connection::read_addr`: dispatch on the address-type byte; the
Domain arm Debug-formats the name bytes, appends a colon (58) and the
decimal port, and parses that as a literal socket address. -/
def Connection.read_addr (c : Connection) : M SocketAddr := do
  let t ← read_u8
  match AddrType.fromByte t with
  | AddrType.V4 => do
    let addr ← read_exact 4
    let port ← read_u16
    pure (SocketAddr.v4 addr port)
  | AddrType.V6 => do
    let addr ← read_exact 16
    let port ← read_u16
    pure (SocketAddr.v6 addr port)
  | AddrType.Domain => do
    let domain ← c.read_variable Stage.Command
    let port ← read_u16
    match socketAddrFromStr (debugFmtBytes domain ++ 58 :: natDecimal port) with
    | some a => pure a
    | none => throwE SessionError.addrParse
  | AddrType.Unsupported => do
    c.reply_command CommandRep.AddrTypeUnsupported
    throwE SessionError.unsupportedAddrType

/-- `Connection::handle_connect_command`: decode the address, try the
outbound connection; on failure reply `ConnectionRefused` (and return
successfully), on success reply `Succeeded` and relay. -/
def Connection.handle_connect_command (c : Connection) (w : World) : M Unit := do
  let addr ← c.read_addr
  if w.connectOk addr then do
    c.reply_command CommandRep.Succeeded
    relayM w
  else
    c.reply_command CommandRep.ConnectionRefused

/-- `Connection::handle_command`: read the 3-byte command frame
(version, command, reserved); on version mismatch reply
`RuleSetNotAllowed`, on an unsupported command reply
`CommandUnsupported`, otherwise handle the connect.  `read_exact 3`
yields exactly three bytes, so the `getD` accesses are the source's
`buf[0]` and `buf[1]`. -/
def Connection.handle_command (c : Connection) (w : World) : M Unit := do
  let buf ← read_exact 3
  if buf.getD 0 0 ≠ c.version then
    c.reply_command CommandRep.RuleSetNotAllowed
  else
    match Command.fromByte (buf.getD 1 0) with
    | Command.Connect => c.handle_connect_command w
    | Command.Unsupported => c.reply_command CommandRep.CommandUnsupported

/-- `Connection::negotiate_method`: on a version mismatch return
`Method::Error` at once; otherwise read the method list and select
Passwd over Noauth over Error. -/
def Connection.negotiate_method (c : Connection) : M Method := do
  let v ← read_u8
  if v ≠ c.version then
    pure Method.Error
  else do
    let buf ← c.read_variable Stage.Method
    if Method.Passwd.toByte ∈ buf then
      pure Method.Passwd
    else if Method.Noauth.toByte ∈ buf then
      pure Method.Noauth
    else
      pure Method.Error

/-- `Connection::auth_passwd`: read and discard the auth-version byte,
read the two length-prefixed fields, compare both against the fixed
credential `[49, 50, 51]`. -/
def Connection.auth_passwd (c : Connection) : M Unit := do
  let _ ← read_u8
  let username ← c.read_variable Stage.Auth
  let password ← c.read_variable Stage.Auth
  let simple : List Nat := [49, 50, 51]
  if username ≠ simple ∨ password ≠ simple then do
    c.reply_auth AuthMethod.Passwd false
    throwE SessionError.authFailed
  else
    c.reply_auth AuthMethod.Passwd true

/-- `Connection::auth`: dispatch on the negotiated method; the `Error`
arm is the source's `unreachable!()` panic. -/
def Connection.auth (c : Connection) (method : Method) : M Unit :=
  match method with
  | Method.Noauth => pure ()
  | Method.Passwd => c.auth_passwd
  | Method.Error => throwE SessionError.panicUnreachable

/-- `Connection::handle`: the full session state machine. -/
def Connection.handle (c : Connection) (w : World) : M Unit := do
  let method ← c.negotiate_method
  c.reply_method method
  c.auth method
  c.handle_command w

/-! ### Evaluation lemmas for the session monad -/

@[simp]
lemma run_bind {α β : Type} (x : M α) (f : α → M β) (s : ByteStream) :
    (x >>= f) s =
      match x s with
      | (Except.ok a, s2) => f a s2
      | (Except.error e, s2) => (Except.error e, s2) := rfl

@[simp]
lemma run_pure {α : Type} (a : α) (s : ByteStream) :
    (pure a : M α) s = (Except.ok a, s) := rfl

@[simp]
lemma run_throwE {α : Type} (e : SessionError) (s : ByteStream) :
    (throwE e : M α) s = (Except.error e, s) := rfl

@[simp]
lemma run_read_u8_cons (b : Nat) (l o : List Nat) :
    read_u8 ⟨b :: l, o⟩ = (Except.ok b, ⟨l, o⟩) := rfl

@[simp]
lemma run_read_u8_nil (o : List Nat) :
    read_u8 ⟨[], o⟩ = (Except.error SessionError.ioError, ⟨[], o⟩) := rfl

@[simp]
lemma run_read_u16_cons (a b : Nat) (l o : List Nat) :
    read_u16 ⟨a :: b :: l, o⟩ = (Except.ok (a * 256 + b), ⟨l, o⟩) := rfl

@[simp]
lemma run_write_all (bs : List Nat) (s : ByteStream) :
    write_all bs s = (Except.ok (), { s with output := s.output ++ bs }) := rfl

@[simp]
lemma run_read_exact_append (data rest o : List Nat) :
    read_exact data.length ⟨data ++ rest, o⟩ = (Except.ok data, ⟨rest, o⟩) := by
  unfold read_exact
  rw [if_pos (by simp)]
  simp

/-- Running `negotiate_method` on a well-formed greeting with a nonempty
method list: the version byte is consumed, the count byte is consumed,
the method bytes are consumed, and the selection prefers Passwd (2) over
Noauth (0) over Error. -/
lemma negotiate_method_run (n : Nat) (methods rest o : List Nat)
    (hlen : methods.length = n) (hn : n ≠ 0) :
    Connection.new.negotiate_method ⟨5 :: n :: methods ++ rest, o⟩ =
      (Except.ok
        (if 2 ∈ methods then Method.Passwd
         else if 0 ∈ methods then Method.Noauth
         else Method.Error), ⟨rest, o⟩) := by
  subst hlen
  simp [Connection.negotiate_method, Connection.read_variable, Connection.new, hn, Method.toByte]
  split_ifs <;> simp

/-! ### The Debug-formatted domain string never parses as a socket address -/

lemma natDecimalAux_digits (fuel : Nat) :
    ∀ n b, b ∈ natDecimalAux fuel n → 48 ≤ b ∧ b ≤ 57 := by
  induction fuel with
  | zero =>
    intro n b hb
    simp [natDecimalAux] at hb
  | succ f ih =>
    intro n b hb
    rw [natDecimalAux] at hb
    by_cases h : n < 10
    · rw [if_pos h] at hb
      have hb2 : b = 48 + n := List.mem_singleton.mp hb
      omega
    · rw [if_neg h] at hb
      rcases List.mem_append.mp hb with h1 | h2
      · exact ih _ b h1
      · have hb2 : b = 48 + n % 10 := List.mem_singleton.mp h2
        have hm : n % 10 < 10 := Nat.mod_lt n (by omega)
        omega

lemma natDecimal_digits (n b : Nat) (hb : b ∈ natDecimal n) : 48 ≤ b ∧ b ≤ 57 :=
  natDecimalAux_digits (n + 1) n b hb

lemma sepMap_mem (bs : List Nat) :
    ∀ b ∈ sepMap bs, (48 ≤ b ∧ b ≤ 57) ∨ b = 44 ∨ b = 32 := by
  induction bs with
  | nil =>
    intro b hb
    simp [sepMap] at hb
  | cons x xs ih =>
    cases xs with
    | nil =>
      intro b hb
      rw [sepMap] at hb
      exact Or.inl (natDecimal_digits x b hb)
    | cons y ys =>
      intro b hb
      rw [sepMap] at hb
      rcases List.mem_append.mp hb with h1 | h2
      · exact Or.inl (natDecimal_digits x b h1)
      · simp only [List.mem_cons] at h2
        rcases h2 with rfl | rfl | h3
        · exact Or.inr (Or.inl rfl)
        · exact Or.inr (Or.inr rfl)
        · exact ih b h3

lemma sepMap_ne_93_58 (bs : List Nat) :
    ∀ b ∈ sepMap bs, b ≠ 93 ∧ b ≠ 58 := by
  intro b hb
  have h := sepMap_mem bs b hb
  refine ⟨?_, ?_⟩ <;> rcases h with h | h | h <;> omega

lemma takeWhile_append_all {p : Nat → Bool} (l l2 : List Nat)
    (h : ∀ b ∈ l, p b = true) :
    (l ++ l2).takeWhile p = l ++ l2.takeWhile p := by
  induction l with
  | nil => simp
  | cons x xs ih =>
    have hx : p x = true := h x (by simp)
    simp only [List.cons_append, List.takeWhile_cons, hx]
    rw [ih (fun b hb => h b (by simp [hb]))]
    simp

lemma dropWhile_append_all {p : Nat → Bool} (l l2 : List Nat)
    (h : ∀ b ∈ l, p b = true) :
    (l ++ l2).dropWhile p = l2.dropWhile p := by
  induction l with
  | nil => simp
  | cons x xs ih =>
    have hx : p x = true := h x (by simp)
    simp only [List.cons_append, List.dropWhile_cons, hx]
    exact ih (fun b hb => h b (by simp [hb]))

lemma sepMap_no_colon (bs : List Nat) :
    (sepMap bs).any (fun b => b == 58) = false := by
  rw [List.any_eq_false]
  intro b hb
  have h := (sepMap_ne_93_58 bs b hb).2
  simpa using h

lemma isIpv6Interior_sepMap (bs : List Nat) :
    isIpv6Interior (sepMap bs) = false := by
  unfold isIpv6Interior
  rw [sepMap_no_colon]
  simp

lemma takeWhile_sepMap (bs tail : List Nat) :
    (sepMap bs ++ 93 :: tail).takeWhile (fun b => decide (b ≠ 93)) = sepMap bs := by
  rw [takeWhile_append_all]
  · simp [List.takeWhile_cons]
  · intro b hb
    have h := (sepMap_ne_93_58 bs b hb).1
    simpa using h

lemma dropWhile_sepMap (bs tail : List Nat) :
    (sepMap bs ++ 93 :: tail).dropWhile (fun b => decide (b ≠ 93)) = 93 :: tail := by
  rw [dropWhile_append_all]
  · simp [List.dropWhile_cons]
  · intro b hb
    have h := (sepMap_ne_93_58 bs b hb).1
    simpa using h

/-- The string the Domain arm of `read_addr` builds — the Debug rendering
of the name bytes, a colon, and anything after it — is never accepted by
the socket-address parser, whatever the name bytes are. -/
@[simp]
lemma fromStr_debug_none (bs tail : List Nat) :
    socketAddrFromStr (debugFmtBytes bs ++ 58 :: tail) = none := by
  have e : debugFmtBytes bs ++ 58 :: tail = 91 :: (sepMap bs ++ 93 :: 58 :: tail) := by
    simp [debugFmtBytes]
  rw [e]
  simp only [socketAddrFromStr, if_pos rfl]
  unfold parseBracketed
  rw [takeWhile_sepMap, dropWhile_sepMap]
  simp [isIpv6Interior_sepMap]

/-- Running `auth_passwd` on a well-formed subnegotiation frame: the
auth-version byte is discarded, both fields are read, and the reply is
the two bytes (1, 1) on mismatch (followed by the bail) or (1, 0) on
match. -/
lemma auth_passwd_run (aver : Nat) (uname pw rest o : List Nat)
    (hu0 : uname.length ≠ 0) (hp0 : pw.length ≠ 0) :
    Connection.new.auth_passwd ⟨aver :: uname.length :: uname ++ pw.length :: pw ++ rest, o⟩ =
      if uname ≠ [49, 50, 51] ∨ pw ≠ [49, 50, 51] then
        (Except.error SessionError.authFailed, ⟨rest, o ++ [1, 1]⟩)
      else
        (Except.ok (), ⟨rest, o ++ [1, 0]⟩) := by
  simp [Connection.auth_passwd, Connection.read_variable, Connection.reply_auth,
    Connection.new, hu0, hp0, AuthMethod.toByte, write_u16, to_u16]
  split_ifs with h
  · simp
  · simp

/-- Running `read_addr` on a Domain request: the formatted name string
never parses, so the address decode fails with `addrParse` and writes
nothing. -/
lemma read_addr_domain_run (domain : List Nat) (p1 p2 : Nat) (rest o : List Nat)
    (hn : domain.length ≠ 0) :
    Connection.new.read_addr ⟨3 :: domain.length :: domain ++ p1 :: p2 :: rest, o⟩ =
      (Except.error SessionError.addrParse, ⟨rest, o⟩) := by
  simp [Connection.read_addr, Connection.read_variable, Connection.new, hn,
    AddrType.fromByte]

/-! ### Claim theorems -/

/-- C1, counterexample.  The claim predicts the failure auth reply
(AVER, 0xFF) — here (2, 255) for the auth-version byte 2 — but on a
mismatched credential (username and password both the single byte 48)
the code replies with the two bytes (1, 1): the first reply byte is the
constant AuthMethod::Passwd discriminant 1 and the failure status is 1,
not 255, whatever auth-version byte the client sent. -/
theorem auth_reply_claim_cex :
    Connection.new.auth_passwd ⟨[2, 1, 48, 1, 48], []⟩ =
      (Except.error SessionError.authFailed, ⟨[], [1, 1]⟩) ∧
    [1, 1] ≠ ([2, 255] : List Nat) := by
  decide

/-- C1, amended.  For every Passwd subnegotiation with well-formed
nonempty fields, a submitted pair different from the configured
credential gets the 2-byte reply (0x01, 0x01) — the first byte is the
constant AuthMethod::Passwd tag, the auth-version byte read from the
client is discarded, and the failure status is 0x01 — and the session
then fails; the exact configured pair gets (0x01, 0x00) and the
subnegotiation returns successfully, so the session proceeds to the
Command state. -/
theorem auth_passwd_reply_amended (aver : Nat) (uname pw rest o : List Nat)
    (hu0 : uname.length ≠ 0) (hp0 : pw.length ≠ 0) :
    (¬(uname = [49, 50, 51] ∧ pw = [49, 50, 51]) →
      Connection.new.auth_passwd ⟨aver :: uname.length :: uname ++ pw.length :: pw ++ rest, o⟩ =
        (Except.error SessionError.authFailed, ⟨rest, o ++ [1, 1]⟩)) ∧
    ((uname = [49, 50, 51] ∧ pw = [49, 50, 51]) →
      Connection.new.auth_passwd ⟨aver :: uname.length :: uname ++ pw.length :: pw ++ rest, o⟩ =
        (Except.ok (), ⟨rest, o ++ [1, 0]⟩)) := by
  have key := auth_passwd_run aver uname pw rest o hu0 hp0
  constructor
  · intro h
    rw [key, if_pos (by tauto)]
  · intro h
    rw [key, if_neg (by simp [h.1, h.2])]

/-- C1, witness for the amended theorem: auth-version byte 7, username
the configured bytes, password the single byte 48: the reply is (1, 1)
and the subnegotiation fails. -/
theorem auth_passwd_reply_amended_witness :
    Connection.new.auth_passwd ⟨[7, 3, 49, 50, 51, 1, 48], []⟩ =
      (Except.error SessionError.authFailed, ⟨[], [1, 1]⟩) :=
  (auth_passwd_reply_amended 7 [49, 50, 51] [48] [] [] (by decide) (by decide)).1 (by decide)

/-- C2, behavior at the failing input.  A Connect to the one-byte domain
name 97 at port 80 never reaches the connect attempt: the session fails
with the address-parse error and the output stays empty — no
ConnectionRefused (or any other) reply frame is written, contradicting
the claim for the Domain address type.  For contrast, the second
conjunct shows a refused IPv4 connect to 127.0.0.1:80, where the
10-byte ConnectionRefused reply (status 5) is written as the claim
says. -/
theorem domain_connect_claim_failing_input :
    Connection.new.handle_connect_command worldRefuseAll ⟨[3, 1, 97, 0, 80], []⟩ =
      (Except.error SessionError.addrParse, ⟨[], []⟩) ∧
    Connection.new.handle_connect_command worldRefuseAll ⟨[1, 127, 0, 0, 1, 0, 80], []⟩ =
      (Except.ok (), ⟨[], [5, 5, 0, 1, 0, 0, 0, 0, 0, 0]⟩) := by
  decide

/-- C3.  Every command reply, for every reply status and every stream
state, is exactly the 10-byte frame version 5, status byte, reserved 0,
address type 1 (IPv4), four zero address bytes and two zero port
bytes. -/
theorem reply_command_frame (rep : CommandRep) (s : ByteStream) :
    Connection.new.reply_command rep s =
      (Except.ok (), { s with output := s.output ++ [5, rep.toByte, 0, 1, 0, 0, 0, 0, 0, 0] }) :=
  rfl

/-- C4.  For every 3-byte command frame whose version byte differs from
5, the server writes exactly the bytes (5, 2, 0, 1, 0, 0, 0, 0, 0, 0) —
status RuleSetNotAllowed — consumes nothing further, and the command
handler returns, closing the session. -/
theorem command_version_mismatch_reply (w : World) (b0 b1 b2 : Nat) (rest o : List Nat)
    (h : b0 ≠ 5) :
    Connection.new.handle_command w ⟨b0 :: b1 :: b2 :: rest, o⟩ =
      (Except.ok (), ⟨rest, o ++ [5, 2, 0, 1, 0, 0, 0, 0, 0, 0]⟩) := by
  have e : read_exact 3 ⟨b0 :: b1 :: b2 :: rest, o⟩ = (Except.ok [b0, b1, b2], ⟨rest, o⟩) :=
    run_read_exact_append [b0, b1, b2] rest o
  simp [Connection.handle_command, Connection.reply_command, Connection.new, e, h,
    CommandRep.toByte, AddrType.toByte]

/-- C4, witness: version byte 4 in the command frame. -/
theorem command_version_mismatch_reply_witness :
    Connection.new.handle_command worldRefuseAll ⟨[4, 1, 0], []⟩ =
      (Except.ok (), ⟨[], [5, 2, 0, 1, 0, 0, 0, 0, 0, 0]⟩) :=
  command_version_mismatch_reply worldRefuseAll 4 1 0 [] [] (by decide)

/-- C5.  For every nonempty greeting method list: if it contains 0x02
the negotiation selects Passwd (regardless of whether and where 0x00
occurs); if it contains no 0x02 but contains 0x00 it selects Noauth;
otherwise it selects Error. -/
theorem negotiate_method_selection (n : Nat) (methods rest o : List Nat)
    (hlen : methods.length = n) (hn : 0 < n) :
    (2 ∈ methods →
      Connection.new.negotiate_method ⟨5 :: n :: methods ++ rest, o⟩ =
        (Except.ok Method.Passwd, ⟨rest, o⟩)) ∧
    (2 ∉ methods → 0 ∈ methods →
      Connection.new.negotiate_method ⟨5 :: n :: methods ++ rest, o⟩ =
        (Except.ok Method.Noauth, ⟨rest, o⟩)) ∧
    (2 ∉ methods → 0 ∉ methods →
      Connection.new.negotiate_method ⟨5 :: n :: methods ++ rest, o⟩ =
        (Except.ok Method.Error, ⟨rest, o⟩)) := by
  have key := negotiate_method_run n methods rest o hlen (by omega)
  refine ⟨fun h2 => ?_, fun h2 h0 => ?_, fun h2 h0 => ?_⟩ <;> rw [key]
  · rw [if_pos h2]
  · rw [if_neg h2, if_pos h0]
  · rw [if_neg h2, if_neg h0]

/-- C5, witness: the method list (0, 2) offers Noauth first, yet Passwd
is selected. -/
theorem negotiate_method_selection_witness :
    Connection.new.negotiate_method ⟨[5, 2, 0, 2], []⟩ =
      (Except.ok Method.Passwd, ⟨[], []⟩) :=
  (negotiate_method_selection 2 [0, 2] [] [] (by decide) (by decide)).1 (by decide)

/-- C6.  The length-prefixed field reader: a zero length byte fails (the
error is the method-negotiation bail in the Method stage and the
variable-length bail otherwise, never a successful empty value); a
nonzero length byte n reads exactly the next n bytes and returns
precisely them, for any n a byte can hold. -/
theorem read_variable_spec (st : Stage) (n : Nat) (data rest o : List Nat)
    (h1 : data.length = n) (h2 : 0 < n) :
    Connection.new.read_variable st ⟨n :: data ++ rest, o⟩ = (Except.ok data, ⟨rest, o⟩) ∧
    ∀ rest2 o2, (Connection.new.read_variable st ⟨0 :: rest2, o2⟩).1 =
      Except.error
        (if st = Stage.Method then SessionError.errorMethod else SessionError.errorLens) := by
  constructor
  · subst h1
    have hn : data.length ≠ 0 := by omega
    simp [Connection.read_variable, hn]
  · intro rest2 o2
    cases st <;>
      simp [Connection.read_variable, Connection.reply_method, Connection.reply_auth,
        Connection.reply_command, Connection.new, Method.toByte, AuthMethod.toByte,
        CommandRep.toByte, AddrType.toByte, write_u16, to_u16]

/-- C6, witness: in the Auth stage, length byte 3 returns exactly the
three bytes (7, 8, 9) and leaves the rest; length byte 0 fails. -/
theorem read_variable_spec_witness :
    Connection.new.read_variable Stage.Auth ⟨[3, 7, 8, 9, 1, 2], []⟩ =
      (Except.ok [7, 8, 9], ⟨[1, 2], []⟩) ∧
    (Connection.new.read_variable Stage.Auth ⟨[0, 9], [4]⟩).1 =
      Except.error SessionError.errorLens := by
  have h := read_variable_spec Stage.Auth 3 [7, 8, 9] [1, 2] [] (by decide) (by decide)
  exact ⟨h.1, by simpa using h.2 [9] [4]⟩

/-- C7.  For every greeting whose version byte differs from 5, the
server still writes the 2-byte negotiation reply (5, 255) and the
session then fails (with the method-negotiation error), reading nothing
further. -/
theorem greeting_version_mismatch_reply (w : World) (v : Nat) (rest o : List Nat)
    (h : v ≠ 5) :
    Connection.new.handle w ⟨v :: rest, o⟩ =
      (Except.error SessionError.errorMethod, ⟨rest, o ++ [5, 255]⟩) := by
  simp [Connection.handle, Connection.negotiate_method, Connection.reply_method,
    Connection.new, h, Method.toByte, write_u16, to_u16]

/-- C7, witness: greeting version byte 6. -/
theorem greeting_version_mismatch_reply_witness :
    Connection.new.handle worldRefuseAll ⟨[6, 9, 9], []⟩ =
      (Except.error SessionError.errorMethod, ⟨[9, 9], [5, 255]⟩) :=
  greeting_version_mismatch_reply worldRefuseAll 6 [9, 9] [] (by decide)

/-- C8.  A greeting with a zero method-count byte is not a framing
violation: the server replies (5, 255) and the session fails with the
same method-negotiation error (`errorMethod`, the spec's
NoAcceptableMethod) as a no-acceptable-method list — not with the
zero-length framing error (`errorLens`, the spec's FramingViolation). -/
theorem greeting_zero_count (w : World) (rest o : List Nat) :
    Connection.new.handle w ⟨5 :: 0 :: rest, o⟩ =
      (Except.error SessionError.errorMethod, ⟨rest, o ++ [5, 255]⟩) := by
  simp [Connection.handle, Connection.negotiate_method, Connection.read_variable,
    Connection.reply_method, Connection.new, Method.toByte, write_u16, to_u16]

/-- C9.  For every well-formed Passwd subnegotiation frame, the
authentication succeeds exactly when the username bytes are
(49, 50, 51) — ASCII 123 — and the password bytes are the same
(49, 50, 51). -/
theorem auth_passwd_success_iff (aver : Nat) (uname pw rest o : List Nat)
    (hu0 : uname.length ≠ 0) (hp0 : pw.length ≠ 0) :
    (Connection.new.auth_passwd ⟨aver :: uname.length :: uname ++ pw.length :: pw ++ rest, o⟩).1 =
        Except.ok () ↔
      uname = [49, 50, 51] ∧ pw = [49, 50, 51] := by
  rw [auth_passwd_run aver uname pw rest o hu0 hp0]
  split_ifs with h
  · constructor
    · intro hc
      exact absurd hc (by simp)
    · intro hc
      tauto
  · push_neg at h
    exact ⟨fun _ => h, fun _ => rfl⟩

/-- C9, witness: the exact configured pair succeeds. -/
theorem auth_passwd_success_iff_witness :
    (Connection.new.auth_passwd ⟨[1, 3, 49, 50, 51, 3, 49, 50, 51], []⟩).1 = Except.ok () :=
  (auth_passwd_success_iff 1 [49, 50, 51] [49, 50, 51] [] [] (by decide) (by decide)).2
    ⟨rfl, rfl⟩

/-- C10.  For every Connect command carrying a Domain address (type byte
3) with any nonempty name and any port, address decoding fails — the
Debug-formatted name-and-port text never parses as a literal socket
address — so the connect attempt is never reached in any world, no
command reply of any status is written (the output is unchanged), and
the session terminates with the address-parse error. -/
theorem domain_addr_never_connects (w : World) (n : Nat) (domain : List Nat) (p1 p2 : Nat)
    (rest o : List Nat) (hlen : domain.length = n) (hn : 0 < n) :
    Connection.new.handle_connect_command w ⟨3 :: n :: domain ++ p1 :: p2 :: rest, o⟩ =
      (Except.error SessionError.addrParse, ⟨rest, o⟩) := by
  subst hlen
  have key := read_addr_domain_run domain p1 p2 rest o (by omega)
  simp only [Connection.handle_connect_command, run_bind]
  rw [key]

/-- C10, witness: domain name (49, 50, 51) — the text 123 — at port 80,
in a world that would accept every connection. -/
theorem domain_addr_never_connects_witness :
    Connection.new.handle_connect_command
        { connectOk := fun _ => true, relay := fun s => some s }
        ⟨[3, 3, 49, 50, 51, 0, 80], []⟩ =
      (Except.error SessionError.addrParse, ⟨[], []⟩) :=
  domain_addr_never_connects { connectOk := fun _ => true, relay := fun s => some s }
    3 [49, 50, 51] 0 80 [] [] (by decide) (by decide)

end Socks5
